import Mathlib

/-!
Verification of the `rag-agent` tool layer (naming resolver, existence cache,
corpus lifecycle, document operations, query operator).

The Python tools are shallowly embedded as pure Lean functions.  The remote
Vertex AI backend and the SDK initialisation call are modelled as an explicit
`Backend` environment whose fields are `Except`-valued (an `Except.error e`
field models the corresponding client call raising an exception with text
`e`; the environment is deterministic, so repeated calls observe the same
outcome).  The per-session key/value store (`tool_context.state`) is an
association list from string keys to booleans.  Every operation additionally
returns the ordered list of backend calls it issued (`List RemoteCall`), so
that "no remote call is made" properties are provable.

Strings are processed through their character lists with structural
functions (`splitSlash`, `listHasInfix`, ...) so that every definition
reduces in the kernel; they mirror Python `str.split("/")`, substring tests,
and the two regular expressions of the source exactly (see the comments at
each definition).
-/

/-- Character class of the regex `[a-zA-Z0-9_-]` used by `utils.py` both in
`re.sub` (sanitisation) and, in `add_data.py`, inside the document-id
capture group. -/
def isAllowedChar (c : Char) : Bool :=
  ('a' ≤ c && c ≤ 'z') || ('A' ≤ c && c ≤ 'Z') || ('0' ≤ c && c ≤ '9') ||
    c == '-' || c == '_'

/-- One step of `re.sub(r"[^a-zA-Z0-9_-]", "_", s)`: a disallowed character
becomes an underscore. -/
def sanitizeChar (c : Char) : Char :=
  if isAllowedChar c then c else '_'

/-- Embedding of `re.sub(r"[^a-zA-Z0-9_-]", "_", s)` (`utils.py` lines 58 and
137): character-wise replacement. -/
def sanitize (s : String) : String :=
  String.mk (s.toList.map sanitizeChar)

/-- Embedding of Python `s.split("/")` on the character list: `[]` maps to
`[[]]` (Python `"".split("/") == [""]`), and each `'/'` starts a new
segment. -/
def splitSlash : List Char → List (List Char)
  | [] => [[]]
  | c :: rest =>
    if c = '/' then [] :: splitSlash rest
    else
      match splitSlash rest with
      | [] => [[c]]
      | h :: t => (c :: h) :: t

/-- Substring occurrence test on character lists; `listHasInfix n h = true`
iff `n` occurs contiguously in `h` (Python `n in h` on strings). -/
def listHasInfix (needle : List Char) : List Char → Bool
  | [] => needle.isEmpty
  | c :: rest => List.isPrefixOf needle (c :: rest) || listHasInfix needle rest

/-- Python `sub in s` for strings. -/
def strContains (s sub : String) : Bool :=
  listHasInfix sub.toList s.toList

/-- Embedding of `re.search(r"/d/([a-zA-Z0-9_-]+)", path)` from
`add_data.py`: scan left to right for the literal `/d/` followed by at least
one character of the class, and return the greedily captured run.  When the
literal is found but the next character is outside the class, the scan
continues from the next position, exactly as `re.search` does. -/
def searchDocId : List Char → Option (List Char)
  | [] => none
  | c :: rest =>
    match c, rest with
    | '/', 'd' :: '/' :: d :: rest2 =>
      if isAllowedChar d then some (d :: rest2.takeWhile isAllowedChar)
      else searchDocId rest
    | _, _ => searchDocId rest

/-- Embedding of `re.match(r"^projects/[^/]+/locations/[^/]+/ragCorpora/[^/]+$", s)`
(`utils.py` line 33).  Because `[^/]` accepts every character except `'/'`
(including a trailing newline, which `$` alone would also tolerate), the
accepted language is exactly: the string splits on `'/'` into the six
segments `projects`, P, `locations`, L, `ragCorpora`, ID with P, L, ID
non-empty. -/
def isCanonicalPath (s : String) : Bool :=
  match splitSlash s.toList with
  | [a, p, b, l, c, i] =>
    a == "projects".toList && b == "locations".toList && c == "ragCorpora".toList &&
      !p.isEmpty && !l.isEmpty && !i.isEmpty
  | _ => false

/-- Configuration from `config.py`: `PROJECT_ID` and `LOCATION` come from the
environment with fixed defaults, so they are modelled as parameters. -/
structure Config where
  PROJECT_ID : String
  LOCATION : String
deriving DecidableEq

/-- A corpus object as returned by the backend.  `name` and `display_name`
are accessed without `hasattr` guards by `check_corpus_exists` and are
modelled as always present; `create_time` and `update_time` are guarded by
`hasattr` in `list_corpora.py` and are optional. -/
structure Corpus where
  name : String
  display_name : String
  create_time : Option String
  update_time : Option String
deriving DecidableEq

/-- A context group of a retrieval response (`rag_query.py` lines 86-99);
every field access is `hasattr`-guarded, so all fields are optional. -/
structure RetrievalContext where
  source_uri : Option String
  source_display_name : Option String
  text : Option String
  score : Option Rat
deriving DecidableEq

/-- A retrieval response.  `contexts = some cs` models
`hasattr(response, "contexts") and response.contexts` being truthy with
`response.contexts.contexts = cs`. -/
structure RetrievalResponse where
  contexts : Option (List RetrievalContext)
deriving DecidableEq

/-- A file object from `rag.list_files`; every field access in
`get_corpus_info.py` is `hasattr`-guarded, so all fields are optional
(timestamp/state stringification is modelled as identity). -/
structure RagFile where
  name : Option String
  source_uri : Option String
  display_name : Option String
  create_time : Option String
  update_time : Option String
  mime_type : Option String
  state : Option String
deriving DecidableEq

/-- The calls a tool can issue against the external client.  `init` is
`vertexai.init`; the others are the `vertexai.rag` operations used by the
tools. -/
inductive RemoteCall where
  | init
  | listCorpora
  | createCorpus (displayName : String)
  | deleteCorpus (name : String)
  | deleteFile (name : String)
  | importFiles (corpus : String) (paths : List String)
  | retrievalQuery (corpus : String) (text : String)
  | getCorpus (name : String)
  | listFiles (name : String)
deriving DecidableEq

/-- The deterministic environment of one tool invocation: each field gives
the outcome of the corresponding client call (`Except.error e` models the
call raising an exception whose text is `e`). -/
structure Backend where
  initResult : Except String Unit
  listCorpora : Except String (List Corpus)
  createCorpus : String → Except String Corpus
  deleteCorpus : String → Except String Unit
  deleteFile : String → Except String Unit
  importFiles : String → List String → Except String Nat
  retrievalQuery : String → String → Except String RetrievalResponse
  getCorpus : String → Except String Corpus
  listFiles : String → Except String (List RagFile)

/-- Session store: `tool_context.state`, a per-session mapping from string
keys to booleans (only booleans are ever written by this code). -/
def SessionState := List (String × Bool)

/-- Python `state.get(key)`: first binding of the key, if any. -/
def getKey : List (String × Bool) → String → Option Bool
  | [], _ => none
  | (k', v) :: rest, k => if k' = k then some v else getKey rest k

/-- Python `state[key] = v`: overwrite the existing binding or append. -/
def setKey : List (String × Bool) → String → Bool → List (String × Bool)
  | [], k, v => [(k, v)]
  | (k', v') :: rest, k, v =>
    if k' = k then (k, v) :: rest else (k', v') :: setKey rest k v

/-- Step 2 of `get_corpus_resource_name` (`utils.py` lines 36-48): inside a
`try`, initialise the SDK, list the corpora and return the canonical name of
the first one whose display name equals the input; any exception is
swallowed and the lookup falls through (`none`). -/
def resolveViaDisplayName (env : Backend) (corpus_name : String) :
    Option String × List RemoteCall :=
  match env.initResult with
  | Except.error _ => (none, [RemoteCall.init])
  | Except.ok _ =>
    match env.listCorpora with
    | Except.error _ => (none, [RemoteCall.init, RemoteCall.listCorpora])
    | Except.ok corpora =>
      ((corpora.find? (fun c => c.display_name == corpus_name)).map Corpus.name,
       [RemoteCall.init, RemoteCall.listCorpora])

/-- Step 3 of `get_corpus_resource_name` (`utils.py` lines 50-58): the last
`'/'`-separated segment (the whole string when it has no `'/'`), sanitised
to the allowed character class. -/
def fallbackId (corpus_name : String) : String :=
  let corpus_id :=
    if corpus_name.toList.contains '/' then
      String.mk ((splitSlash corpus_name.toList).getLastD [])
    else corpus_name
  sanitize corpus_id

/-- The path synthesised by the fallback step (`utils.py` line 61). -/
def fallbackPath (cfg : Config) (corpus_name : String) : String :=
  "projects/" ++ cfg.PROJECT_ID ++ "/locations/" ++ cfg.LOCATION ++
    "/ragCorpora/" ++ fallbackId corpus_name

/-- Embedding of `get_corpus_resource_name` (`utils.py` lines 19-61):
(1) a canonical path is returned unchanged; (2) otherwise a display-name
lookup is attempted, with failures swallowed; (3) otherwise the fallback
path is synthesised.  The second component records the backend calls
issued. -/
def get_corpus_resource_name (cfg : Config) (env : Backend) (corpus_name : String) :
    String × List RemoteCall :=
  if isCanonicalPath corpus_name then (corpus_name, [])
  else
    match resolveViaDisplayName env corpus_name with
    | (some resolved, tr) => (resolved, tr)
    | (none, tr) => (fallbackPath cfg corpus_name, tr)

/-- Embedding of `check_corpus_exists` (`utils.py` lines 64-100): a truthy
session flag short-circuits to `true` with no client call; otherwise, inside
a `try`, the SDK is initialised, the name resolved, and the corpus list
scanned for a canonical-name or display-name match (the first match sets the
session flag); any exception yields `false` (fails closed). -/
def check_corpus_exists (cfg : Config) (env : Backend) (corpus_name : String)
    (st : SessionState) : Bool × SessionState × List RemoteCall :=
  if getKey st ("corpus_exists_" ++ corpus_name) = some true then (true, st, [])
  else
    match env.initResult with
    | Except.error _ => (false, st, [RemoteCall.init])
    | Except.ok _ =>
      match get_corpus_resource_name cfg env corpus_name with
      | (corpus_resource_name, tr) =>
        match env.listCorpora with
        | Except.error _ => (false, st, RemoteCall.init :: tr ++ [RemoteCall.listCorpora])
        | Except.ok corpora =>
          match corpora.find? (fun c =>
              c.name == corpus_resource_name || c.display_name == corpus_name) with
          | some _ =>
            (true, setKey st ("corpus_exists_" ++ corpus_name) true,
             RemoteCall.init :: tr ++ [RemoteCall.listCorpora])
          | none => (false, st, RemoteCall.init :: tr ++ [RemoteCall.listCorpora])

/-- Result dictionary of `create_corpus_if_not_exists` (`utils.py` lines
103-173).  `display_name` is only present in the creation-success return. -/
structure CreateResult where
  success : Bool
  status : String
  message : String
  corpus_name : String
  display_name : Option String
  was_created : Bool
deriving DecidableEq

/-- Embedding of `create_corpus_if_not_exists` (`utils.py` lines 103-173):
an existing corpus returns success immediately; otherwise, inside a `try`,
the SDK is initialised, the name sanitised into a display name, the corpus
created (with the fixed embedding-model configuration, which issues no
separate client call), the session flag set, and the created corpus's
canonical name returned; any exception becomes a structured error result. -/
def create_corpus_if_not_exists (cfg : Config) (env : Backend) (corpus_name : String)
    (st : SessionState) : CreateResult × SessionState × List RemoteCall :=
  match check_corpus_exists cfg env corpus_name st with
  | (true, st1, tr1) =>
    ({ success := true, status := "success",
       message := "Corpus \x27" ++ corpus_name ++ "\x27 already exists",
       corpus_name := corpus_name, display_name := none, was_created := false },
     st1, tr1)
  | (false, st1, tr1) =>
    match env.initResult with
    | Except.error e =>
      ({ success := false, status := "error",
         message := "Error creating corpus: " ++ e,
         corpus_name := corpus_name, display_name := none, was_created := false },
       st1, tr1 ++ [RemoteCall.init])
    | Except.ok _ =>
      let display_name := sanitize corpus_name
      match env.createCorpus display_name with
      | Except.error e =>
        ({ success := false, status := "error",
           message := "Error creating corpus: " ++ e,
           corpus_name := corpus_name, display_name := none, was_created := false },
         st1, tr1 ++ [RemoteCall.init, RemoteCall.createCorpus display_name])
      | Except.ok rag_corpus =>
        ({ success := true, status := "success",
           message := "Successfully created corpus \x27" ++ corpus_name ++ "\x27",
           corpus_name := rag_corpus.name, display_name := some rag_corpus.display_name,
           was_created := true },
         setKey st1 ("corpus_exists_" ++ corpus_name) true,
         tr1 ++ [RemoteCall.init, RemoteCall.createCorpus display_name])

/-- Result dictionary of `delete_corpus` (`delete_corpus.py`). -/
structure DeleteCorpusResult where
  status : String
  message : String
  corpus_name : String
deriving DecidableEq

/-- Embedding of `delete_corpus` (`delete_corpus.py` lines 15-76): without
confirmation, an error is returned before any client call; with it, the SDK
is initialised, existence verified (error if absent), the name resolved, the
delete issued, and the session flag — if present — overwritten to `false`;
any exception becomes a structured error result. -/
def delete_corpus (cfg : Config) (env : Backend) (corpus_name : String)
    (confirm : Bool) (st : SessionState) :
    DeleteCorpusResult × SessionState × List RemoteCall :=
  if confirm = false then
    ({ status := "error",
       message := "Deletion not confirmed. Please set confirm=True to delete the corpus.",
       corpus_name := corpus_name }, st, [])
  else
    match env.initResult with
    | Except.error e =>
      ({ status := "error", message := "Error deleting corpus: " ++ e,
         corpus_name := corpus_name }, st, [RemoteCall.init])
    | Except.ok _ =>
      match check_corpus_exists cfg env corpus_name st with
      | (false, st1, tr1) =>
        ({ status := "error",
           message := "Corpus \x27" ++ corpus_name ++ "\x27 does not exist, so it cannot be deleted.",
           corpus_name := corpus_name }, st1, RemoteCall.init :: tr1)
      | (true, st1, tr1) =>
        match get_corpus_resource_name cfg env corpus_name with
        | (corpus_resource_name, tr2) =>
          match env.deleteCorpus corpus_resource_name with
          | Except.error e =>
            ({ status := "error", message := "Error deleting corpus: " ++ e,
               corpus_name := corpus_name }, st1,
             RemoteCall.init :: tr1 ++ tr2 ++ [RemoteCall.deleteCorpus corpus_resource_name])
          | Except.ok _ =>
            let state_key := "corpus_exists_" ++ corpus_name
            let st2 := if (getKey st1 state_key).isSome then setKey st1 state_key false else st1
            ({ status := "success",
               message := "Successfully deleted corpus \x27" ++ corpus_name ++ "\x27",
               corpus_name := corpus_name }, st2,
             RemoteCall.init :: tr1 ++ tr2 ++ [RemoteCall.deleteCorpus corpus_resource_name])

/-- Result dictionary of `delete_document` (`delete_document.py`). -/
structure DeleteDocumentResult where
  status : String
  message : String
  corpus_name : String
  document_id : String
deriving DecidableEq

/-- Embedding of `delete_document` (`delete_document.py` lines 15-68): the
SDK is initialised, existence verified (error if absent), the nested file
resource path constructed, and the delete issued; any exception becomes a
structured error result. -/
def delete_document (cfg : Config) (env : Backend) (corpus_name document_id : String)
    (st : SessionState) : DeleteDocumentResult × SessionState × List RemoteCall :=
  match env.initResult with
  | Except.error e =>
    ({ status := "error", message := "Error deleting document: " ++ e,
       corpus_name := corpus_name, document_id := document_id }, st, [RemoteCall.init])
  | Except.ok _ =>
    match check_corpus_exists cfg env corpus_name st with
    | (false, st1, tr1) =>
      ({ status := "error",
         message := "Corpus \x27" ++ corpus_name ++ "\x27 does not exist, so the document cannot be deleted.",
         corpus_name := corpus_name, document_id := document_id }, st1,
       RemoteCall.init :: tr1)
    | (true, st1, tr1) =>
      match get_corpus_resource_name cfg env corpus_name with
      | (corpus_resource_name, tr2) =>
        let document_resource_name := corpus_resource_name ++ "/ragFiles/" ++ document_id
        match env.deleteFile document_resource_name with
        | Except.error e =>
          ({ status := "error", message := "Error deleting document: " ++ e,
             corpus_name := corpus_name, document_id := document_id }, st1,
           RemoteCall.init :: tr1 ++ tr2 ++ [RemoteCall.deleteFile document_resource_name])
        | Except.ok _ =>
          ({ status := "success",
             message := "Successfully deleted document \x27" ++ document_id ++
               "\x27 from corpus \x27" ++ corpus_name ++ "\x27",
             corpus_name := corpus_name, document_id := document_id }, st1,
           RemoteCall.init :: tr1 ++ tr2 ++ [RemoteCall.deleteFile document_resource_name])

/-- One entry of the processed query results (`rag_query.py` lines 87-98),
with the documented defaults for absent fields. -/
structure QueryResultItem where
  source_uri : String
  source_name : String
  text : String
  score : Rat
deriving DecidableEq

/-- Mapping of one context group into a result entry (`rag_query.py` lines
87-98): each `hasattr`-guarded field defaults to the empty string, the score
to zero. -/
def ctxItem (c : RetrievalContext) : QueryResultItem :=
  { source_uri := c.source_uri.getD "",
    source_name := c.source_display_name.getD "",
    text := c.text.getD "",
    score := c.score.getD 0 }

/-- Result dictionary of `rag_query` (`rag_query.py`).  `corpus_name`,
`results` and `results_count` are absent from some branches of the source
and are therefore optional. -/
structure RagQueryResult where
  status : String
  message : String
  query : String
  corpus_name : Option String
  results : Option (List QueryResultItem)
  results_count : Option Nat
deriving DecidableEq

/-- Embedding of `rag_query` (`rag_query.py` lines 20-125): initialise the
SDK, ensure the corpus exists (auto-create, with a create failure reported
as an error envelope), short-circuit with a warning when the corpus was just
created, otherwise resolve the name, issue the retrieval query and map the
response; an empty result list is a warning; any exception reaching the
outer `try` becomes a structured error result. -/
def rag_query (cfg : Config) (env : Backend) (corpus_name query : String)
    (st : SessionState) : RagQueryResult × SessionState × List RemoteCall :=
  match env.initResult with
  | Except.error e =>
    ({ status := "error", message := "Error querying corpus: " ++ e,
       query := query, corpus_name := some corpus_name,
       results := none, results_count := none }, st, [RemoteCall.init])
  | Except.ok _ =>
    match create_corpus_if_not_exists cfg env corpus_name st with
    | (corpus_result, st1, tr1) =>
      if corpus_result.success = false then
        ({ status := "error",
           message := "Unable to access or create corpus \x27" ++ corpus_name ++
             "\x27: " ++ corpus_result.message,
           query := query, corpus_name := some corpus_name,
           results := none, results_count := none }, st1, RemoteCall.init :: tr1)
      else if corpus_result.was_created then
        ({ status := "warning",
           message := "Created a new corpus \x27" ++ corpus_name ++
             "\x27, but it doesn\x27t contain any data yet. Please add data to the corpus before querying.",
           query := query, corpus_name := some corpus_name,
           results := some [], results_count := some 0 }, st1, RemoteCall.init :: tr1)
      else
        match get_corpus_resource_name cfg env corpus_name with
        | (corpus_resource_name, tr2) =>
          match env.retrievalQuery corpus_resource_name query with
          | Except.error e =>
            ({ status := "error", message := "Error querying corpus: " ++ e,
               query := query, corpus_name := some corpus_name,
               results := none, results_count := none }, st1,
             RemoteCall.init :: tr1 ++ tr2 ++
               [RemoteCall.retrievalQuery corpus_resource_name query])
          | Except.ok response =>
            let results := match response.contexts with
              | none => []
              | some cs => cs.map ctxItem
            if results.isEmpty then
              ({ status := "warning",
                 message := "No results found in corpus \x27" ++ corpus_name ++
                   "\x27 for query: \x27" ++ query ++ "\x27",
                 query := query, corpus_name := none,
                 results := some [], results_count := some 0 }, st1,
               RemoteCall.init :: tr1 ++ tr2 ++
                 [RemoteCall.retrievalQuery corpus_resource_name query])
            else
              ({ status := "success",
                 message := "Successfully queried corpus \x27" ++ corpus_name ++ "\x27",
                 query := query, corpus_name := none,
                 results := some results, results_count := some results.length }, st1,
               RemoteCall.init :: tr1 ++ tr2 ++
                 [RemoteCall.retrievalQuery corpus_resource_name query])

/-- Path classification loop of `add_data` (`add_data.py` lines 49-76),
processing the inputs in order: a direct Drive file link or a `gs://` URI is
accepted as-is; a `docs.google.com` link with an extractable id is rewritten
to the Drive form and the before/after pair recorded (Python keeps these in
an insertion-ordered dict; since value always equals the rewritten form of
the key, the association list differs only by possible duplicate keys);
everything else is invalid.  Returns (validated, invalid, conversions). -/
def classify : List String → List String × List String × List (String × String)
  | [] => ([], [], [])
  | path :: rest =>
    let r := classify rest
    if strContains path "drive.google.com/file/d/" then
      (path :: r.1, r.2.1, r.2.2)
    else if List.isPrefixOf "gs://".toList path.toList then
      (path :: r.1, r.2.1, r.2.2)
    else if strContains path "docs.google.com" then
      match searchDocId path.toList with
      | some file_id =>
        let drive_url := "https://drive.google.com/file/d/" ++ String.mk file_id ++ "/view"
        (drive_url :: r.1, r.2.1, (path, drive_url) :: r.2.2)
      | none => (r.1, path :: r.2.1, r.2.2)
    else (r.1, path :: r.2.1, r.2.2)

/-- Per-path acceptance predicate implied by the classification loop: a path
contributes to `validated_paths` iff it is a direct Drive link, a `gs://`
URI, or a `docs.google.com` link with an extractable document id. -/
def validPath (path : String) : Bool :=
  strContains path "drive.google.com/file/d/" ||
    List.isPrefixOf "gs://".toList path.toList ||
    (strContains path "docs.google.com" && (searchDocId path.toList).isSome)

/-- Result dictionary of `add_data` (`add_data.py`).  Fields absent from
some branches of the source are optional. -/
structure AddDataResult where
  status : String
  message : String
  corpus_name : Option String
  corpus_created : Option Bool
  files_added : Option Nat
  paths : Option (List String)
  invalid_paths : Option (List String)
  conversions : Option (List (String × String))
deriving DecidableEq

/-- Embedding of `add_data` (`add_data.py` lines 22-142): initialise the
SDK, classify the paths (an empty validated list is an error returned before
any further client call), ensure the corpus exists (auto-create, failure
reported as an error envelope), resolve the name, and issue one batch import
(chunking configuration and rate limit are fixed constants that issue no
separate client call); any exception reaching the outer `try` becomes a
structured error result. -/
def add_data (cfg : Config) (env : Backend) (corpus_name : String)
    (paths : List String) (st : SessionState) :
    AddDataResult × SessionState × List RemoteCall :=
  match env.initResult with
  | Except.error e =>
    ({ status := "error", message := "Error adding data to corpus: " ++ e,
       corpus_name := some corpus_name, corpus_created := none, files_added := none,
       paths := some paths, invalid_paths := none, conversions := none },
     st, [RemoteCall.init])
  | Except.ok _ =>
    match classify paths with
    | (validated_paths, invalid_paths, conversions) =>
      if validated_paths.isEmpty then
        ({ status := "error",
           message := "No valid paths provided. Please provide Google Drive URLs, Google Docs/Sheets/Slides URLs, or GCS paths.",
           corpus_name := none, corpus_created := none, files_added := none,
           paths := none, invalid_paths := some invalid_paths, conversions := none },
         st, [RemoteCall.init])
      else
        match create_corpus_if_not_exists cfg env corpus_name st with
        | (corpus_result, st1, tr1) =>
          if corpus_result.success = false then
            ({ status := "error",
               message := "Unable to access or create corpus \x27" ++ corpus_name ++
                 "\x27: " ++ corpus_result.message,
               corpus_name := some corpus_name, corpus_created := none,
               files_added := none, paths := some paths, invalid_paths := none,
               conversions := none }, st1, RemoteCall.init :: tr1)
          else
            let corpus_created := corpus_result.was_created
            match get_corpus_resource_name cfg env corpus_name with
            | (corpus_resource_name, tr2) =>
              match env.importFiles corpus_resource_name validated_paths with
              | Except.error e =>
                ({ status := "error",
                   message := "Error adding data to corpus: " ++ e,
                   corpus_name := some corpus_name, corpus_created := none,
                   files_added := none, paths := some paths, invalid_paths := none,
                   conversions := none }, st1,
                 RemoteCall.init :: tr1 ++ tr2 ++
                   [RemoteCall.importFiles corpus_resource_name validated_paths])
              | Except.ok imported_count =>
                let creation_msg :=
                  if corpus_created then
                    "Created new corpus \x27" ++ corpus_name ++ "\x27 and " else ""
                let conversion_msg :=
                  if conversions.isEmpty then ""
                  else " (Converted Google Docs URLs to Drive format)"
                ({ status := "success",
                   message := creation_msg ++ "Successfully added " ++
                     toString imported_count ++ " file(s) to corpus \x27" ++
                     corpus_name ++ "\x27" ++ conversion_msg,
                   corpus_name := some corpus_name, corpus_created := some corpus_created,
                   files_added := some imported_count, paths := some validated_paths,
                   invalid_paths := some invalid_paths,
                   conversions := some conversions }, st1,
                 RemoteCall.init :: tr1 ++ tr2 ++
                   [RemoteCall.importFiles corpus_resource_name validated_paths])

/-- One entry of the per-file listing of `get_corpus_info`
(`get_corpus_info.py` lines 67-85): every field defaults to `""` when
absent; the id is the last path segment of the file's resource name. -/
structure FileDetails where
  file_id : String
  source_uri : String
  display_name : String
  create_time : String
  update_time : String
  mime_type : String
  state : String
deriving DecidableEq

/-- Mapping of one backend file object into `FileDetails`
(`get_corpus_info.py` lines 67-85). -/
def fileDetailsOf (f : RagFile) : FileDetails :=
  { file_id := match f.name with
      | some nm => String.mk ((splitSlash nm.toList).getLastD [])
      | none => "",
    source_uri := f.source_uri.getD "",
    display_name := f.display_name.getD "",
    create_time := f.create_time.getD "",
    update_time := f.update_time.getD "",
    mime_type := f.mime_type.getD "",
    state := f.state.getD "" }

/-- Result dictionary of `get_corpus_info` (`get_corpus_info.py`); the
success-only fields are optional.  `file_count` models `stats.file_count`. -/
structure GetCorpusInfoResult where
  status : String
  message : String
  corpus_name : String
  corpus_resource_name : Option String
  display_name : Option String
  file_count : Option Nat
  files : Option (List FileDetails)
deriving DecidableEq

/-- Embedding of `get_corpus_info` (`get_corpus_info.py` lines 15-118):
initialise the SDK, verify existence (error if absent), resolve the name,
best-effort fetch the corpus metadata (a failure here is swallowed and the
input name kept as display name), then list the files — a failure there is
fatal and surfaced as an error result; any exception reaching the outer
`try` becomes a structured error result. -/
def get_corpus_info (cfg : Config) (env : Backend) (corpus_name : String)
    (st : SessionState) : GetCorpusInfoResult × SessionState × List RemoteCall :=
  match env.initResult with
  | Except.error e =>
    ({ status := "error", message := "Error retrieving corpus information: " ++ e,
       corpus_name := corpus_name, corpus_resource_name := none,
       display_name := none, file_count := none, files := none },
     st, [RemoteCall.init])
  | Except.ok _ =>
    match check_corpus_exists cfg env corpus_name st with
    | (false, st1, tr1) =>
      ({ status := "error",
         message := "Corpus \x27" ++ corpus_name ++ "\x27 does not exist",
         corpus_name := corpus_name, corpus_resource_name := none,
         display_name := none, file_count := none, files := none }, st1,
       RemoteCall.init :: tr1)
    | (true, st1, tr1) =>
      match get_corpus_resource_name cfg env corpus_name with
      | (corpus_resource_name, tr2) =>
        let corpus_display_name := match env.getCorpus corpus_resource_name with
          | Except.ok corpus =>
            if corpus.display_name ≠ "" then corpus.display_name else corpus_name
          | Except.error _ => corpus_name
        match env.listFiles corpus_resource_name with
        | Except.error e =>
          ({ status := "error",
             message := "Error retrieving files for corpus \x27" ++ corpus_name ++
               "\x27: " ++ e,
             corpus_name := corpus_name,
             corpus_resource_name := some corpus_resource_name,
             display_name := none, file_count := none, files := none }, st1,
           RemoteCall.init :: tr1 ++ tr2 ++
             [RemoteCall.getCorpus corpus_resource_name,
              RemoteCall.listFiles corpus_resource_name])
        | Except.ok files =>
          let file_details := files.map fileDetailsOf
          ({ status := "success",
             message := "Successfully retrieved information for corpus \x27" ++
               corpus_name ++ "\x27",
             corpus_name := corpus_name,
             corpus_resource_name := some corpus_resource_name,
             display_name := some corpus_display_name,
             file_count := some file_details.length,
             files := some file_details }, st1,
           RemoteCall.init :: tr1 ++ tr2 ++
             [RemoteCall.getCorpus corpus_resource_name,
              RemoteCall.listFiles corpus_resource_name])

/-- One entry of the corpus listing (`list_corpora.py` lines 41-50). -/
structure CorpusData where
  resource_name : String
  display_name : String
  create_time : String
  update_time : String
deriving DecidableEq

/-- Mapping of one backend corpus into a listing entry (`list_corpora.py`
lines 41-50): timestamps default to `""` when absent. -/
def corpusDataOf (c : Corpus) : CorpusData :=
  { resource_name := c.name, display_name := c.display_name,
    create_time := c.create_time.getD "", update_time := c.update_time.getD "" }

/-- Result dictionary of `list_corpora` (`list_corpora.py`); the
success-only fields are optional. -/
structure ListCorporaResult where
  status : String
  message : String
  corpora : Option (List CorpusData)
  count : Option Nat
  note : Option String
deriving DecidableEq

/-- Embedding of `list_corpora` (`list_corpora.py` lines 14-68): initialise
the SDK, list all corpora with no existence check, and map each into a
listing entry; any exception becomes a structured error result. -/
def list_corpora (env : Backend) (st : SessionState) :
    ListCorporaResult × SessionState × List RemoteCall :=
  match env.initResult with
  | Except.error e =>
    ({ status := "error", message := "Error listing corpora: " ++ e,
       corpora := none, count := none, note := none }, st, [RemoteCall.init])
  | Except.ok _ =>
    match env.listCorpora with
    | Except.error e =>
      ({ status := "error", message := "Error listing corpora: " ++ e,
         corpora := none, count := none, note := none }, st,
       [RemoteCall.init, RemoteCall.listCorpora])
    | Except.ok corpora =>
      let corpus_info := corpora.map corpusDataOf
      ({ status := "success",
         message := "Found " ++ toString corpus_info.length ++ " corpus/corpora",
         corpora := some corpus_info, count := some corpus_info.length,
         note := some "Use the \x27resource_name\x27 field (not \x27display_name\x27) when referencing corpora in other tools" },
       st, [RemoteCall.init, RemoteCall.listCorpora])

/-- Predicate singling out retrieval-query calls in a trace. -/
def RemoteCall.isRetrieval : RemoteCall → Bool
  | RemoteCall.retrievalQuery _ _ => true
  | _ => false

/-- Predicate singling out corpus-creation calls in a trace. -/
def RemoteCall.isCreate : RemoteCall → Bool
  | RemoteCall.createCorpus _ => true
  | _ => false

/-- Predicate singling out file-import calls in a trace. -/
def RemoteCall.isImport : RemoteCall → Bool
  | RemoteCall.importFiles _ _ => true
  | _ => false

/-- Concrete configuration used by the evaluation witnesses. -/
def cfgW : Config := { PROJECT_ID := "p", LOCATION := "l" }

/-- Concrete happy-path backend used by the evaluation witnesses: no corpora
exist yet, creation and deletion succeed, imports report one file per path,
retrieval returns no contexts. -/
def envOK : Backend :=
  { initResult := Except.ok (),
    listCorpora := Except.ok [],
    createCorpus := fun d =>
      Except.ok { name := "projects/p/locations/l/ragCorpora/123", display_name := d,
                  create_time := none, update_time := none },
    deleteCorpus := fun _ => Except.ok (),
    deleteFile := fun _ => Except.ok (),
    importFiles := fun _ ps => Except.ok ps.length,
    retrievalQuery := fun _ _ => Except.ok { contexts := none },
    getCorpus := fun _ => Except.error "not found",
    listFiles := fun _ => Except.ok [] }

/-- Reading a key immediately after writing it yields the written value. -/
theorem getKey_setKey_same (st : List (String × Bool)) (k : String) (v : Bool) :
    getKey (setKey st k v) k = some v := by
  induction st with
  | nil => simp [setKey, getKey]
  | cons p rest ih =>
    obtain ⟨k', v'⟩ := p
    by_cases h : k' = k
    · simp [setKey, getKey, h]
    · simp [setKey, getKey, h, ih]

/-- Step 1 of the resolver: a canonical path is returned unchanged with no
client call. -/
theorem resolve_canonical (cfg : Config) (env : Backend) (s : String)
    (h : isCanonicalPath s = true) :
    get_corpus_resource_name cfg env s = (s, []) := by
  simp [get_corpus_resource_name, h]

/-- C2: for every input string matching the canonical resource path pattern
projects/P/locations/L/ragCorpora/ID, the resolver returns the input
unchanged and issues no remote call. -/
theorem c2_canonical_identity (cfg : Config) (env : Backend) (s : String)
    (h : isCanonicalPath s = true) :
    get_corpus_resource_name cfg env s = (s, []) :=
  resolve_canonical cfg env s h

/-- Witness for C2 at a concrete canonical path. -/
theorem c2_witness :
    isCanonicalPath "projects/p/locations/l/ragCorpora/c" = true ∧
    get_corpus_resource_name cfgW envOK "projects/p/locations/l/ragCorpora/c" =
      ("projects/p/locations/l/ragCorpora/c", []) :=
  ⟨by decide, c2_canonical_identity cfgW envOK _ (by decide)⟩

/-- C4: delete with confirm=false returns status error without touching the
session state and without issuing any remote call. -/
theorem c4_unconfirmed_delete (cfg : Config) (env : Backend) (corpus_name : String)
    (st : SessionState) :
    delete_corpus cfg env corpus_name false st =
      ({ status := "error",
         message := "Deletion not confirmed. Please set confirm=True to delete the corpus.",
         corpus_name := corpus_name }, st, []) := by
  rfl

/-- C7: classification of the example input list — the Docs link is
converted to the Drive form and recorded in the conversions, the gs:// URI
is accepted as-is, the unrecognised string is invalid — and the envelope
returned by add_data carries a non-empty conversions map. -/
theorem c7_add_data_classification :
    classify ["https://docs.google.com/document/d/ABC123/edit", "gs://bucket/x",
              "not-a-path"] =
      (["https://drive.google.com/file/d/ABC123/view", "gs://bucket/x"],
       ["not-a-path"],
       [("https://docs.google.com/document/d/ABC123/edit",
         "https://drive.google.com/file/d/ABC123/view")]) ∧
    (add_data cfgW envOK "c"
        ["https://docs.google.com/document/d/ABC123/edit", "gs://bucket/x",
         "not-a-path"] []).1.conversions =
      some [("https://docs.google.com/document/d/ABC123/edit",
             "https://drive.google.com/file/d/ABC123/view")] ∧
    ((add_data cfgW envOK "c"
        ["https://docs.google.com/document/d/ABC123/edit", "gs://bucket/x",
         "not-a-path"] []).1.conversions.getD []).isEmpty = false := by
  refine ⟨by decide, ?_, ?_⟩ <;> decide

/-- A truthy session flag makes the existence check a pure cache hit. -/
theorem check_cache_hit (cfg : Config) (env : Backend) (n : String) (st : SessionState)
    (h : getKey st ("corpus_exists_" ++ n) = some true) :
    check_corpus_exists cfg env n st = (true, st, []) := by
  simp [check_corpus_exists, h]

/-- Whenever the existence check returns true, the returned session state
carries a true flag for the identifier. -/
theorem check_true_flag {cfg : Config} {env : Backend} {n : String}
    {st st' : SessionState} {tr : List RemoteCall}
    (h : check_corpus_exists cfg env n st = (true, st', tr)) :
    getKey st' ("corpus_exists_" ++ n) = some true := by
  by_cases hc : getKey st ("corpus_exists_" ++ n) = some true
  · rw [check_cache_hit cfg env n st hc] at h
    simp only [Prod.mk.injEq] at h
    obtain ⟨-, rfl, -⟩ := h
    exact hc
  · unfold check_corpus_exists at h
    rw [if_neg hc] at h
    cases hinit : env.initResult with
    | error e => simp [hinit] at h
    | ok u =>
      rcases hg : get_corpus_resource_name cfg env n with ⟨rn, trg⟩
      rw [hinit, hg] at h
      cases hlist : env.listCorpora with
      | error e => simp [hlist] at h
      | ok cs =>
        rw [hlist] at h
        cases hfind : cs.find? (fun c => c.name == rn || c.display_name == n) with
        | none => simp [hfind] at h
        | some c =>
          simp only [hfind, Prod.mk.injEq] at h
          obtain ⟨-, rfl, -⟩ := h
          exact getKey_setKey_same st ("corpus_exists_" ++ n) true

/-- Whenever create_corpus_if_not_exists reports success, the returned
session state carries a true flag for the identifier (either the existence
check already established it, or creation just set it). -/
theorem create_success_flag {cfg : Config} {env : Backend} {n : String}
    {st st' : SessionState} {r : CreateResult} {tr : List RemoteCall}
    (h : create_corpus_if_not_exists cfg env n st = (r, st', tr))
    (hs : r.success = true) :
    getKey st' ("corpus_exists_" ++ n) = some true := by
  unfold create_corpus_if_not_exists at h
  rcases hch : check_corpus_exists cfg env n st with ⟨b, st1, tr1⟩
  rw [hch] at h
  cases b with
  | true =>
    simp only [Prod.mk.injEq] at h
    obtain ⟨-, rfl, -⟩ := h
    exact check_true_flag hch
  | false =>
    cases hinit : env.initResult with
    | error e =>
      simp only [hinit, Prod.mk.injEq] at h
      obtain ⟨rfl, -, -⟩ := h
      simp at hs
    | ok u =>
      cases hcr : env.createCorpus (sanitize n) with
      | error e =>
        simp only [hinit, hcr, Prod.mk.injEq] at h
        obtain ⟨rfl, -, -⟩ := h
        simp at hs
      | ok rag_corpus =>
        simp only [hinit, hcr, Prod.mk.injEq] at h
        obtain ⟨-, rfl, -⟩ := h
        exact getKey_setKey_same st1 ("corpus_exists_" ++ n) true

/-- C3: after create_corpus_if_not_exists returns success, the session flag
for the identifier is true, and a subsequent existence check for the same
identifier in the resulting session returns true with no remote call and no
state change. -/
theorem c3_cached_exists_after_create (cfg : Config) (env : Backend) (n : String)
    (st st' : SessionState) (r : CreateResult) (tr : List RemoteCall)
    (h : create_corpus_if_not_exists cfg env n st = (r, st', tr))
    (hs : r.success = true) :
    getKey st' ("corpus_exists_" ++ n) = some true ∧
    check_corpus_exists cfg env n st' = (true, st', []) := by
  have hflag := create_success_flag h hs
  exact ⟨hflag, check_cache_hit cfg env n st' hflag⟩

/-- Witness for C3: a concrete creation run, whose resulting session makes
the follow-up existence check a pure cache hit. -/
theorem c3_witness :
    getKey (create_corpus_if_not_exists cfgW envOK "c" []).2.1 ("corpus_exists_" ++ "c") =
      some true ∧
    check_corpus_exists cfgW envOK "c" (create_corpus_if_not_exists cfgW envOK "c" []).2.1 =
      (true, (create_corpus_if_not_exists cfgW envOK "c" []).2.1, []) :=
  c3_cached_exists_after_create cfgW envOK "c" []
    (create_corpus_if_not_exists cfgW envOK "c" []).2.1
    (create_corpus_if_not_exists cfgW envOK "c" []).1
    (create_corpus_if_not_exists cfgW envOK "c" []).2.2
    rfl (by decide)

/-- C5: after delete_corpus returns status success, the session state maps
the identifier's flag to false — the key is overwritten (it was necessarily
present, because the successful existence check either hit the cache or
wrote a true flag), never removed. -/
theorem c5_delete_flips_flag (cfg : Config) (env : Backend) (n : String)
    (confirm : Bool) (st st' : SessionState) (r : DeleteCorpusResult)
    (tr : List RemoteCall)
    (h : delete_corpus cfg env n confirm st = (r, st', tr))
    (hs : r.status = "success") :
    getKey st' ("corpus_exists_" ++ n) = some false := by
  unfold delete_corpus at h
  by_cases hcf : confirm = false
  · simp only [hcf, if_pos rfl, Prod.mk.injEq] at h
    obtain ⟨rfl, -, -⟩ := h
    simp at hs
  · rw [if_neg (by simpa using hcf)] at h
    cases hinit : env.initResult with
    | error e =>
      simp only [hinit, Prod.mk.injEq] at h
      obtain ⟨rfl, -, -⟩ := h
      simp at hs
    | ok u =>
      rcases hch : check_corpus_exists cfg env n st with ⟨b, st1, tr1⟩
      cases b with
      | false =>
        simp only [hinit, hch, Prod.mk.injEq] at h
        obtain ⟨rfl, -, -⟩ := h
        simp at hs
      | true =>
        have hflag := check_true_flag hch
        cases hdel : env.deleteCorpus (get_corpus_resource_name cfg env n).1 with
        | error e =>
          simp only [hinit, hch, hdel, Prod.mk.injEq] at h
          obtain ⟨rfl, -, -⟩ := h
          simp at hs
        | ok v =>
          simp only [hinit, hch, hdel, Prod.mk.injEq] at h
          obtain ⟨-, hst, -⟩ := h
          rw [hflag] at hst
          simp only [Option.isSome_some, if_pos rfl] at hst
          rw [← hst]
          exact getKey_setKey_same st1 ("corpus_exists_" ++ n) false

/-- Witness for C5: a concrete confirmed deletion starting from a session
whose flag is true; afterwards the flag reads false. -/
theorem c5_witness :
    getKey (delete_corpus cfgW envOK "c" true [("corpus_exists_c", true)]).2.1
      ("corpus_exists_" ++ "c") = some false :=
  c5_delete_flips_flag cfgW envOK "c" true [("corpus_exists_c", true)]
    (delete_corpus cfgW envOK "c" true [("corpus_exists_c", true)]).2.1
    (delete_corpus cfgW envOK "c" true [("corpus_exists_c", true)]).1
    (delete_corpus cfgW envOK "c" true [("corpus_exists_c", true)]).2.2
    rfl (by decide)

/-- The resolver only ever issues init and list calls. -/
theorem resolve_trace_no_retrieval (cfg : Config) (env : Backend) (n : String) :
    ((get_corpus_resource_name cfg env n).2.all fun x => !x.isRetrieval) = true := by
  unfold get_corpus_resource_name resolveViaDisplayName
  by_cases hc : isCanonicalPath n = true
  · simp [hc]
  · cases hinit : env.initResult with
    | error e => simp [hc, hinit, RemoteCall.isRetrieval]
    | ok u =>
      cases hlist : env.listCorpora with
      | error e => simp [hc, hinit, hlist, RemoteCall.isRetrieval]
      | ok cs =>
        cases hfind : cs.find? (fun c => c.display_name == n) <;>
          simp [hc, hinit, hlist, hfind, RemoteCall.isRetrieval]

/-- The existence check only ever issues init and list calls. -/
theorem check_trace_no_retrieval (cfg : Config) (env : Backend) (n : String)
    (st : SessionState) :
    ((check_corpus_exists cfg env n st).2.2.all fun x => !x.isRetrieval) = true := by
  unfold check_corpus_exists
  by_cases hc : getKey st ("corpus_exists_" ++ n) = some true
  · simp [hc]
  · rw [if_neg hc]
    cases hinit : env.initResult with
    | error e => simp [RemoteCall.isRetrieval]
    | ok u =>
      rcases hg : get_corpus_resource_name cfg env n with ⟨rn, trg⟩
      have hres := resolve_trace_no_retrieval cfg env n
      rw [hg] at hres
      cases hlist : env.listCorpora with
      | error e =>
        simp only [RemoteCall.isRetrieval] at hres
        simp [hlist, RemoteCall.isRetrieval] at hres ⊢
        exact hres
      | ok cs =>
        cases hfind : cs.find? (fun c => c.name == rn || c.display_name == n) <;>
          · simp only [RemoteCall.isRetrieval] at hres
            simp [hlist, hfind, RemoteCall.isRetrieval] at hres ⊢
            exact hres

/-- Corpus creation only ever issues init, list and create calls. -/
theorem create_trace_no_retrieval (cfg : Config) (env : Backend) (n : String)
    (st : SessionState) :
    ((create_corpus_if_not_exists cfg env n st).2.2.all fun x => !x.isRetrieval) = true := by
  unfold create_corpus_if_not_exists
  rcases hch : check_corpus_exists cfg env n st with ⟨b, st1, tr1⟩
  have hchk := check_trace_no_retrieval cfg env n st
  rw [hch] at hchk
  cases b with
  | true => simpa using hchk
  | false =>
    simp only [RemoteCall.isRetrieval] at hchk
    simp [RemoteCall.isRetrieval] at hchk
    cases hinit : env.initResult with
    | error e =>
      simp [RemoteCall.isRetrieval]
      exact hchk
    | ok u =>
      cases hcr : env.createCorpus (sanitize n) <;>
        · simp [hcr, RemoteCall.isRetrieval]
          exact hchk

/-- C6: when the auto-create step reports that the corpus was just created,
rag_query returns a warning with an empty result list and zero count, and
its trace contains no retrieval-query call. -/
theorem c6_query_on_fresh_corpus (cfg : Config) (env : Backend) (n q : String)
    (st st' : SessionState) (r : CreateResult) (tr : List RemoteCall)
    (h : create_corpus_if_not_exists cfg env n st = (r, st', tr))
    (hw : r.was_created = true) :
    (rag_query cfg env n q st).1.status = "warning" ∧
    (rag_query cfg env n q st).1.results = some [] ∧
    (rag_query cfg env n q st).1.results_count = some 0 ∧
    ((rag_query cfg env n q st).2.2.all fun x => !x.isRetrieval) = true := by
  have htr := create_trace_no_retrieval cfg env n st
  rw [h] at htr
  have hinit : env.initResult = Except.ok () ∧ r.success = true := by
    unfold create_corpus_if_not_exists at h
    rcases hch : check_corpus_exists cfg env n st with ⟨b, st1, tr1⟩
    rw [hch] at h
    cases b with
    | true =>
      simp only [Prod.mk.injEq] at h
      obtain ⟨rfl, -, -⟩ := h
      simp at hw
    | false =>
      cases hi : env.initResult with
      | error e =>
        simp only [hi, Prod.mk.injEq] at h
        obtain ⟨rfl, -, -⟩ := h
        simp at hw
      | ok u =>
        cases hcr : env.createCorpus (sanitize n) with
        | error e =>
          simp only [hi, hcr, Prod.mk.injEq] at h
          obtain ⟨rfl, -, -⟩ := h
          simp at hw
        | ok rag_corpus =>
          simp only [hi, hcr, Prod.mk.injEq] at h
          obtain ⟨h1, -, -⟩ := h
          subst h1
          cases u
          exact ⟨rfl, rfl⟩
  obtain ⟨hi, hsucc⟩ := hinit
  unfold rag_query
  simp only [hi, h, hsucc, hw, Bool.true_eq_false, if_false, if_true]
  simp only [RemoteCall.isRetrieval] at htr
  simp [RemoteCall.isRetrieval] at htr ⊢
  exact htr

/-- Witness for C6: a concrete run in which the corpus is created on the
fly and the query short-circuits with a warning. -/
theorem c6_witness :
    (rag_query cfgW envOK "c" "q" []).1.status = "warning" ∧
    (rag_query cfgW envOK "c" "q" []).1.results = some [] ∧
    (rag_query cfgW envOK "c" "q" []).1.results_count = some 0 ∧
    ((rag_query cfgW envOK "c" "q" []).2.2.all fun x => !x.isRetrieval) = true :=
  c6_query_on_fresh_corpus cfgW envOK "c" "q" []
    (create_corpus_if_not_exists cfgW envOK "c" []).2.1
    (create_corpus_if_not_exists cfgW envOK "c" []).1
    (create_corpus_if_not_exists cfgW envOK "c" []).2.2
    rfl (by decide)

/-- When no input path validates, the classification loop keeps every path,
in order, in the invalid list, and validates and converts nothing. -/
theorem classify_all_invalid (paths : List String)
    (hp : ∀ p ∈ paths, validPath p = false) :
    classify paths = ([], paths, []) := by
  induction paths with
  | nil => rfl
  | cons p rest ih =>
    have hrest : classify rest = ([], rest, []) :=
      ih fun q hq => hp q (List.mem_cons_of_mem p hq)
    have hpv : validPath p = false := hp p (List.mem_cons_self p rest)
    simp only [validPath, Bool.or_eq_false_iff, Bool.and_eq_false_iff] at hpv
    obtain ⟨⟨h1, h2⟩, h3⟩ := hpv
    unfold classify
    rw [hrest]
    rw [if_neg (by simp only [h1]; decide), if_neg (by simp only [h2]; decide)]
    rcases h3 with h3 | h3
    · rw [if_neg (by simp only [h3]; decide)]
    · by_cases hdocs : strContains p "docs.google.com" = true
      · rw [if_pos hdocs]
        cases hs : searchDocId p.toList with
        | none => rfl
        | some fid => rw [hs] at h3; simp at h3
      · rw [if_neg (by simpa using hdocs)]

/-- C8: when no path validates, add_data returns status error without any
create or import call and without touching the session state; when the
client initialises normally, the envelope carries exactly the invalid paths
and the trace holds nothing beyond the SDK initialisation. -/
theorem c8_no_valid_paths (cfg : Config) (env : Backend) (n : String)
    (paths : List String) (st : SessionState)
    (hp : ∀ p ∈ paths, validPath p = false) :
    (add_data cfg env n paths st).1.status = "error" ∧
    (add_data cfg env n paths st).2.1 = st ∧
    ((add_data cfg env n paths st).2.2.all fun x => !x.isCreate && !x.isImport) = true ∧
    (env.initResult = Except.ok () →
      (add_data cfg env n paths st).1.invalid_paths = some paths ∧
      (add_data cfg env n paths st).2.2 = [RemoteCall.init]) := by
  have hcl := classify_all_invalid paths hp
  cases hinit : env.initResult with
  | error e =>
    unfold add_data
    simp only [hinit]
    refine ⟨trivial, trivial, by decide, fun hok => ?_⟩
    simp at hok
  | ok u =>
    cases u
    unfold add_data
    simp only [hinit, hcl, List.isEmpty_nil, if_true]
    exact ⟨trivial, trivial, by decide, fun _ => ⟨trivial, trivial⟩⟩

/-- Witness for C8 on a concrete invalid input list. -/
theorem c8_witness :
    (add_data cfgW envOK "c" ["not-a-path"] []).1.status = "error" ∧
    (add_data cfgW envOK "c" ["not-a-path"] []).2.1 = [] ∧
    ((add_data cfgW envOK "c" ["not-a-path"] []).2.2.all
      fun x => !x.isCreate && !x.isImport) = true ∧
    (envOK.initResult = Except.ok () →
      (add_data cfgW envOK "c" ["not-a-path"] []).1.invalid_paths = some ["not-a-path"] ∧
      (add_data cfgW envOK "c" ["not-a-path"] []).2.2 = [RemoteCall.init]) :=
  c8_no_valid_paths cfgW envOK "c" ["not-a-path"] [] (by decide)

/-- Sanitisation maps every character into the allowed class. -/
theorem isAllowedChar_sanitizeChar (c : Char) : isAllowedChar (sanitizeChar c) = true := by
  unfold sanitizeChar
  by_cases h : isAllowedChar c = true
  · rw [if_pos h]
    exact h
  · rw [if_neg h]
    decide

/-- Every character of a sanitised string lies in the allowed class. -/
theorem sanitize_all_allowed (s : String) :
    ((sanitize s).toList.all isAllowedChar) = true := by
  have key : ∀ l : List Char, ((l.map sanitizeChar).all isAllowedChar) = true := by
    intro l
    induction l with
    | nil => rfl
    | cons c cs ih => simp [isAllowedChar_sanitizeChar, ih]
  exact key s.toList

/-- C9: an identifier reaching the fallback step (not canonical, no
display-name match) resolves to the synthesised path, whose derived
identifier consists only of characters from the allowed class
a-z, A-Z, 0-9, underscore and hyphen. -/
theorem c9_fallback_charset (cfg : Config) (env : Backend) (n : String)
    (h1 : isCanonicalPath n = false)
    (h2 : (resolveViaDisplayName env n).1 = none) :
    (get_corpus_resource_name cfg env n).1 = fallbackPath cfg n ∧
    ((fallbackId n).toList.all isAllowedChar) = true := by
  constructor
  · unfold get_corpus_resource_name
    rw [if_neg (by simp [h1])]
    rcases hR : resolveViaDisplayName env n with ⟨o, tr⟩
    rw [hR] at h2
    cases o with
    | some r => simp at h2
    | none => rfl
  · have := sanitize_all_allowed
      (if n.toList.contains '/' then String.mk ((splitSlash n.toList).getLastD []) else n)
    simpa [fallbackId] using this

/-- Witness for C9 at a concrete display-name-style identifier. -/
theorem c9_witness :
    (get_corpus_resource_name cfgW envOK "My Corpus!").1 = fallbackPath cfgW "My Corpus!" ∧
    ((fallbackId "My Corpus!").toList.all isAllowedChar) = true :=
  c9_fallback_charset cfgW envOK "My Corpus!" (by decide) (by decide)

/-- String append concatenates the character lists. -/
theorem str_toList_append (a b : String) : (a ++ b).toList = a.toList ++ b.toList := by
  cases a
  cases b
  rfl

/-- String append is associative. -/
theorem str_append_assoc (a b c : String) : (a ++ b) ++ c = a ++ (b ++ c) := by
  cases a
  cases b
  cases c
  show String.mk _ = String.mk _
  rw [List.append_assoc]

/-- The empty string is right neutral for string append. -/
theorem str_append_empty (a : String) : a ++ "" = a := by
  cases a
  show String.mk _ = String.mk _
  rw [List.append_nil]

/-- A string has an empty character list exactly when it is empty. -/
theorem str_toList_eq_nil_iff (s : String) : s.toList = [] ↔ s = "" := by
  cases s with
  | mk data =>
    constructor
    · intro h
      simp only [String.toList] at h
      subst h
      rfl
    · intro h
      rw [h]
      rfl

/-- Splitting never yields an empty segment list. -/
theorem splitSlash_ne_nil (l : List Char) : splitSlash l ≠ [] := by
  cases l with
  | nil => simp [splitSlash]
  | cons c cs =>
    simp only [splitSlash]
    split
    · simp
    · split <;> simp

/-- Splitting distributes over a slash that follows a slash-free block. -/
theorem splitSlash_append_noslash (a rest : List Char) (h : '/' ∉ a) :
    splitSlash (a ++ '/' :: rest) = a :: splitSlash rest := by
  induction a with
  | nil => simp [splitSlash]
  | cons c a ih =>
    have hc : c ≠ '/' := fun hcc => h (hcc ▸ List.mem_cons_self c a)
    have ha : '/' ∉ a := fun hm => h (List.mem_cons_of_mem c hm)
    simp only [List.cons_append, splitSlash, if_neg hc, List.append_eq, ih ha]

/-- A slash-free list is a single segment. -/
theorem splitSlash_noslash (l : List Char) (h : '/' ∉ l) : splitSlash l = [l] := by
  induction l with
  | nil => rfl
  | cons c cs ih =>
    have hc : c ≠ '/' := fun hcc => h (hcc ▸ List.mem_cons_self c cs)
    have hcs : '/' ∉ cs := fun hm => h (List.mem_cons_of_mem c hm)
    simp only [splitSlash, if_neg hc, ih hcs]

/-- The default of getLastD is irrelevant on a non-empty list. -/
theorem getLastD_irrel {α : Type} (t : List α) (h : t ≠ []) (a b : α) :
    t.getLastD a = t.getLastD b := by
  cases t with
  | nil => exact absurd rfl h
  | cons x xs => simp only [List.getLastD_cons]

/-- A list containing a slash splits into at least two segments. -/
theorem splitSlash_length_ge_two (l : List Char) (h : '/' ∈ l) :
    2 ≤ (splitSlash l).length := by
  induction l with
  | nil => simp at h
  | cons c cs ih =>
    by_cases hc : c = '/'
    · subst hc
      have h2 : 0 < (splitSlash cs).length := List.length_pos.mpr (splitSlash_ne_nil cs)
      simp [splitSlash]
      omega
    · have hcs : '/' ∈ cs := by
        rcases List.mem_cons.mp h with h' | h'
        · exact absurd h'.symm hc
        · exact h'
      simp only [splitSlash, if_neg hc]
      rcases hsp : splitSlash cs with _ | ⟨hd, tl⟩
      · exact absurd hsp (splitSlash_ne_nil cs)
      · have := ih hcs
        rw [hsp] at this
        simpa using this

/-- The last segment of a list ending in a slash is empty. -/
theorem splitSlash_trailing_slash (l : List Char) :
    (splitSlash (l ++ ['/'])).getLastD [] = [] := by
  induction l with
  | nil => rfl
  | cons c cs ih =>
    by_cases hc : c = '/'
    · subst hc
      have step : splitSlash (('/' :: cs) ++ ['/']) = [] :: splitSlash (cs ++ ['/']) := by
        simp [splitSlash]
      rw [step, List.getLastD_cons]
      exact ih
    · simp only [List.cons_append, splitSlash, if_neg hc]
      rcases hsp : splitSlash (cs ++ ['/']) with _ | ⟨hd, tl⟩
      · exact absurd hsp (splitSlash_ne_nil _)
      · have hlen : 2 ≤ (splitSlash (cs ++ ['/'])).length :=
          splitSlash_length_ge_two _ (by simp)
        rw [hsp] at hlen
        have htl : tl ≠ [] := by
          cases tl with
          | nil => simp at hlen
          | cons y ys => simp
        rw [hsp, List.getLastD_cons] at ih
        rw [List.getLastD_cons]
        rw [getLastD_irrel tl htl (c :: hd) hd]
        exact ih

/-- A path whose last slash-separated segment is empty never matches the
canonical pattern. -/
theorem canonical_false_of_last_nil (s : String)
    (h : (splitSlash s.toList).getLastD [] = []) : isCanonicalPath s = false := by
  unfold isCanonicalPath
  split
  · next a p b l c i heq =>
    rw [heq] at h
    simp only [List.getLastD_cons, List.getLastD_nil] at h
    rw [h]
    simp
  · rfl

/-- The fallback identifier never contains a slash. -/
theorem fallbackId_noslash (n : String) : '/' ∉ (fallbackId n).toList := by
  intro hm
  have hall := sanitize_all_allowed
    (if n.toList.contains '/' then String.mk ((splitSlash n.toList).getLastD []) else n)
  rw [List.all_eq_true] at hall
  have hx := hall '/' (by simpa [fallbackId] using hm)
  exact absurd hx (by decide)

/-- When the last segment of the input is empty, the fallback identifier is
the empty string. -/
theorem fallbackId_of_last_nil (n : String)
    (h : (splitSlash n.toList).getLastD [] = []) : fallbackId n = "" := by
  show sanitize (if n.toList.contains '/' then
    String.mk ((splitSlash n.toList).getLastD []) else n) = ""
  by_cases hc : '/' ∈ n.toList
  · rw [if_pos (by simpa [List.elem_iff] using hc)]
    rw [h]
    rfl
  · rw [if_neg (by simpa [List.elem_iff] using hc)]
    have hsp := splitSlash_noslash n.toList hc
    rw [hsp] at h
    simp only [List.getLastD_cons, List.getLastD_nil] at h
    rw [(str_toList_eq_nil_iff n).mp h]
    rfl

/-- When the last segment of the input is non-empty, so is the fallback
identifier. -/
theorem fallbackId_ne_nil (n : String)
    (h : (splitSlash n.toList).getLastD [] ≠ []) : (fallbackId n).toList ≠ [] := by
  show (sanitize (if n.toList.contains '/' then
    String.mk ((splitSlash n.toList).getLastD []) else n)).toList ≠ []
  by_cases hc : '/' ∈ n.toList
  · rw [if_pos (by simpa [List.elem_iff] using hc)]
    simpa [sanitize] using h
  · rw [if_neg (by simpa [List.elem_iff] using hc)]
    have hsp := splitSlash_noslash n.toList hc
    rw [hsp] at h
    simp only [List.getLastD_cons, List.getLastD_nil] at h
    simpa [sanitize] using h

/-- Character-list decomposition of the literal path pieces. -/
theorem projects_toList : "projects/".toList = "projects".toList ++ ['/'] := by decide

/-- Character-list decomposition of the locations piece. -/
theorem locations_toList : "/locations/".toList = '/' :: ("locations".toList ++ ['/']) := by
  decide

/-- Character-list decomposition of the ragCorpora piece. -/
theorem ragcorpora_toList : "/ragCorpora/".toList = '/' :: ("ragCorpora".toList ++ ['/']) := by
  decide

/-- Shape of the synthesised path's character list. -/
theorem fallbackPath_toList (cfg : Config) (n : String) :
    (fallbackPath cfg n).toList =
      "projects".toList ++ '/' :: (cfg.PROJECT_ID.toList ++ '/' ::
        ("locations".toList ++ '/' :: (cfg.LOCATION.toList ++ '/' ::
          ("ragCorpora".toList ++ '/' :: (fallbackId n).toList)))) := by
  unfold fallbackPath
  simp only [str_toList_append, projects_toList, locations_toList, ragcorpora_toList,
    List.append_assoc, List.cons_append, List.singleton_append, List.nil_append]

/-- With well-formed project and location settings and a non-empty last
input segment, the synthesised fallback path is canonical. -/
theorem fallbackPath_canonical (cfg : Config) (n : String)
    (hp : '/' ∉ cfg.PROJECT_ID.toList) (hpne : cfg.PROJECT_ID ≠ "")
    (hl : '/' ∉ cfg.LOCATION.toList) (hlne : cfg.LOCATION ≠ "")
    (hn : (splitSlash n.toList).getLastD [] ≠ []) :
    isCanonicalPath (fallbackPath cfg n) = true := by
  have hid_ne := fallbackId_ne_nil n hn
  have hid_ns := fallbackId_noslash n
  have hsplit : splitSlash (fallbackPath cfg n).toList =
      ["projects".toList, cfg.PROJECT_ID.toList, "locations".toList,
       cfg.LOCATION.toList, "ragCorpora".toList, (fallbackId n).toList] := by
    rw [fallbackPath_toList]
    rw [splitSlash_append_noslash _ _ (by decide)]
    rw [splitSlash_append_noslash _ _ hp]
    rw [splitSlash_append_noslash _ _ (by decide)]
    rw [splitSlash_append_noslash _ _ hl]
    rw [splitSlash_append_noslash _ _ (by decide)]
    rw [splitSlash_noslash _ hid_ns]
  have h1 : cfg.PROJECT_ID.toList ≠ [] := fun hh => hpne ((str_toList_eq_nil_iff _).mp hh)
  have h2 : cfg.LOCATION.toList ≠ [] := fun hh => hlne ((str_toList_eq_nil_iff _).mp hh)
  unfold isCanonicalPath
  rw [hsplit]
  simp
  exact ⟨⟨h1, h2⟩, hid_ne⟩

/-- With an empty last input segment, the synthesised path ends in the
literal ragCorpora/ piece and is not canonical. -/
theorem fallbackPath_of_last_nil (cfg : Config) (n : String)
    (h : (splitSlash n.toList).getLastD [] = []) :
    fallbackPath cfg n =
      "projects/" ++ cfg.PROJECT_ID ++ "/locations/" ++ cfg.LOCATION ++ "/ragCorpora/" ∧
    isCanonicalPath (fallbackPath cfg n) = false := by
  have hid := fallbackId_of_last_nil n h
  constructor
  · unfold fallbackPath
    rw [hid, str_append_empty]
  · apply canonical_false_of_last_nil
    rw [fallbackPath_toList, hid]
    have h0 : ("" : String).toList = [] := rfl
    rw [h0]
    have hshape : "projects".toList ++ '/' :: (cfg.PROJECT_ID.toList ++ '/' ::
        ("locations".toList ++ '/' :: (cfg.LOCATION.toList ++ '/' ::
          ("ragCorpora".toList ++ '/' :: ([] : List Char))))) =
        ("projects".toList ++ '/' :: (cfg.PROJECT_ID.toList ++ '/' ::
          ("locations".toList ++ '/' :: (cfg.LOCATION.toList ++ '/' ::
            "ragCorpora".toList)))) ++ ['/'] := by
      simp [List.append_assoc]
    rw [hshape]
    exact splitSlash_trailing_slash _

/-- C10 (amended): when project and location settings are well formed
(non-empty, slash-free) and the input's last slash-separated segment is
non-empty, the synthesised fallback path matches the canonical pattern and
resolving it again returns it unchanged; when the last segment is empty, the
synthesised path ends in the literal ragCorpora/ piece and does not match
the canonical pattern, so a second resolution cannot return it through the
canonical-path shortcut (though the fallback may still reproduce it). -/
theorem c10_fallback_idempotent :
    (∀ (cfg : Config) (env : Backend) (n : String),
      '/' ∉ cfg.PROJECT_ID.toList → cfg.PROJECT_ID ≠ "" →
      '/' ∉ cfg.LOCATION.toList → cfg.LOCATION ≠ "" →
      (splitSlash n.toList).getLastD [] ≠ [] →
      isCanonicalPath (fallbackPath cfg n) = true ∧
      get_corpus_resource_name cfg env (fallbackPath cfg n) = (fallbackPath cfg n, [])) ∧
    (∀ (cfg : Config) (n : String),
      (splitSlash n.toList).getLastD [] = [] →
      fallbackPath cfg n =
        "projects/" ++ cfg.PROJECT_ID ++ "/locations/" ++ cfg.LOCATION ++ "/ragCorpora/" ∧
      isCanonicalPath (fallbackPath cfg n) = false) := by
  constructor
  · intro cfg env n hp hpne hl hlne hn
    have hcan := fallbackPath_canonical cfg n hp hpne hl hlne hn
    exact ⟨hcan, resolve_canonical cfg env _ hcan⟩
  · intro cfg n h
    exact fallbackPath_of_last_nil cfg n h

/-- Witness for C10 at concrete inputs for both branches. -/
theorem c10_witness :
    (isCanonicalPath (fallbackPath cfgW "abc") = true ∧
     get_corpus_resource_name cfgW envOK (fallbackPath cfgW "abc") =
       (fallbackPath cfgW "abc", [])) ∧
    (fallbackPath cfgW "x/" =
       "projects/" ++ cfgW.PROJECT_ID ++ "/locations/" ++ cfgW.LOCATION ++ "/ragCorpora/" ∧
     isCanonicalPath (fallbackPath cfgW "x/") = false) :=
  ⟨c10_fallback_idempotent.1 cfgW envOK "abc" (by decide) (by decide) (by decide)
     (by decide) (by decide),
   c10_fallback_idempotent.2 cfgW "x/" (by decide)⟩

/-- Counterexample for C10 as stated: the input x/ has an empty last
segment, the path it synthesises is not canonical, and yet that path IS a
fixed point of resolution (the fallback rebuilds it verbatim when the
display-name lookup finds nothing), contradicting the claim's final clause
that it is not a fixed point of resolution. -/
theorem c10_counterexample :
    (splitSlash ("x/").toList).getLastD [] = [] ∧
    isCanonicalPath ((get_corpus_resource_name cfgW envOK "x/").1) = false ∧
    (get_corpus_resource_name cfgW envOK ((get_corpus_resource_name cfgW envOK "x/").1)).1 =
      (get_corpus_resource_name cfgW envOK "x/").1 := by
  refine ⟨by decide, by decide, by decide⟩

/-- The three envelope statuses produced by the tools. -/
def validStatus (s : String) : Bool :=
  s == "success" || s == "warning" || s == "error"

/-- Every rag_query envelope carries one of the three statuses. -/
theorem rag_query_status_valid (cfg : Config) (env : Backend) (n q : String)
    (st : SessionState) : validStatus (rag_query cfg env n q st).1.status = true := by
  unfold rag_query
  repeat' split
  all_goals simp [validStatus]
  all_goals repeat' split
  all_goals simp [validStatus]

/-- Every add_data envelope carries one of the three statuses. -/
theorem add_data_status_valid (cfg : Config) (env : Backend) (n : String)
    (paths : List String) (st : SessionState) :
    validStatus (add_data cfg env n paths st).1.status = true := by
  unfold add_data
  repeat' split
  all_goals simp [validStatus]

/-- Every delete_corpus envelope carries one of the three statuses. -/
theorem delete_corpus_status_valid (cfg : Config) (env : Backend) (n : String)
    (confirm : Bool) (st : SessionState) :
    validStatus (delete_corpus cfg env n confirm st).1.status = true := by
  unfold delete_corpus
  repeat' split
  all_goals simp [validStatus]

/-- Every delete_document envelope carries one of the three statuses. -/
theorem delete_document_status_valid (cfg : Config) (env : Backend) (n d : String)
    (st : SessionState) :
    validStatus (delete_document cfg env n d st).1.status = true := by
  unfold delete_document
  repeat' split
  all_goals simp [validStatus]
  all_goals repeat' split
  all_goals simp [validStatus]

/-- Every get_corpus_info envelope carries one of the three statuses. -/
theorem get_corpus_info_status_valid (cfg : Config) (env : Backend) (n : String)
    (st : SessionState) :
    validStatus (get_corpus_info cfg env n st).1.status = true := by
  unfold get_corpus_info
  repeat' split
  all_goals simp [validStatus]

/-- Every list_corpora envelope carries one of the three statuses. -/
theorem list_corpora_status_valid (env : Backend) (st : SessionState) :
    validStatus (list_corpora env st).1.status = true := by
  unfold list_corpora
  repeat' split
  all_goals simp [validStatus]

/-- With a cached-true flag, create_corpus_if_not_exists is a pure success
with no client call. -/
theorem create_cache_hit (cfg : Config) (env : Backend) (n : String) (st : SessionState)
    (h : getKey st ("corpus_exists_" ++ n) = some true) :
    create_corpus_if_not_exists cfg env n st =
      ({ success := true, status := "success",
         message := "Corpus \x27" ++ n ++ "\x27 already exists",
         corpus_name := n, display_name := none, was_created := false }, st, []) := by
  unfold create_corpus_if_not_exists
  rw [check_cache_hit cfg env n st h]

/-- A listing failure surfaces in list_corpora as an error envelope that
embeds the exception text. -/
theorem list_corpora_error_boundary (env : Backend) (st : SessionState) (e : String)
    (hinit : env.initResult = Except.ok ()) (hlist : env.listCorpora = Except.error e) :
    (list_corpora env st).1.status = "error" ∧
    (list_corpora env st).1.message = "Error listing corpora: " ++ e := by
  unfold list_corpora
  simp [hinit, hlist]

/-- A retrieval failure surfaces in rag_query as an error envelope that
embeds the exception text. -/
theorem rag_query_error_boundary (cfg : Config) (env : Backend) (n q : String)
    (st : SessionState) (e : String)
    (hinit : env.initResult = Except.ok ())
    (hcache : getKey st ("corpus_exists_" ++ n) = some true)
    (hq : env.retrievalQuery (get_corpus_resource_name cfg env n).1 q = Except.error e) :
    (rag_query cfg env n q st).1.status = "error" ∧
    (rag_query cfg env n q st).1.message = "Error querying corpus: " ++ e := by
  unfold rag_query
  rcases hg : get_corpus_resource_name cfg env n with ⟨rn, tr2⟩
  rw [hg] at hq
  simp only at hq
  simp [hinit, create_cache_hit cfg env n st hcache, hg, hq]

/-- An import failure surfaces in add_data as an error envelope that embeds
the exception text. -/
theorem add_data_error_boundary (cfg : Config) (env : Backend) (n : String)
    (paths : List String) (st : SessionState) (e : String)
    (hinit : env.initResult = Except.ok ())
    (hcache : getKey st ("corpus_exists_" ++ n) = some true)
    (hne : (classify paths).1 ≠ [])
    (him : env.importFiles (get_corpus_resource_name cfg env n).1 (classify paths).1 =
      Except.error e) :
    (add_data cfg env n paths st).1.status = "error" ∧
    (add_data cfg env n paths st).1.message = "Error adding data to corpus: " ++ e := by
  unfold add_data
  rcases hcp : classify paths with ⟨v, inv, conv⟩
  rw [hcp] at hne him
  simp only at hne him
  rcases hg : get_corpus_resource_name cfg env n with ⟨rn, tr2⟩
  rw [hg] at him
  simp only at him
  simp [hinit, hcp, create_cache_hit cfg env n st hcache, hg, him, hne]

/-- A deletion failure surfaces in delete_corpus as an error envelope that
embeds the exception text. -/
theorem delete_corpus_error_boundary (cfg : Config) (env : Backend) (n : String)
    (st : SessionState) (e : String)
    (hinit : env.initResult = Except.ok ())
    (hcache : getKey st ("corpus_exists_" ++ n) = some true)
    (hdel : env.deleteCorpus (get_corpus_resource_name cfg env n).1 = Except.error e) :
    (delete_corpus cfg env n true st).1.status = "error" ∧
    (delete_corpus cfg env n true st).1.message = "Error deleting corpus: " ++ e := by
  unfold delete_corpus
  rcases hg : get_corpus_resource_name cfg env n with ⟨rn, tr2⟩
  rw [hg] at hdel
  simp only at hdel
  simp [hinit, check_cache_hit cfg env n st hcache, hg, hdel]

/-- A file-deletion failure surfaces in delete_document as an error
envelope that embeds the exception text. -/
theorem delete_document_error_boundary (cfg : Config) (env : Backend) (n d : String)
    (st : SessionState) (e : String)
    (hinit : env.initResult = Except.ok ())
    (hcache : getKey st ("corpus_exists_" ++ n) = some true)
    (hfile : env.deleteFile ((get_corpus_resource_name cfg env n).1 ++ "/ragFiles/" ++ d) =
      Except.error e) :
    (delete_document cfg env n d st).1.status = "error" ∧
    (delete_document cfg env n d st).1.message = "Error deleting document: " ++ e := by
  unfold delete_document
  rcases hg : get_corpus_resource_name cfg env n with ⟨rn, tr2⟩
  rw [hg] at hfile
  simp only at hfile
  simp [hinit, check_cache_hit cfg env n st hcache, hg, hfile]

/-- A file-listing failure surfaces in get_corpus_info as an error envelope
that embeds the exception text. -/
theorem get_corpus_info_error_boundary (cfg : Config) (env : Backend) (n : String)
    (st : SessionState) (e : String)
    (hinit : env.initResult = Except.ok ())
    (hcache : getKey st ("corpus_exists_" ++ n) = some true)
    (hfiles : env.listFiles (get_corpus_resource_name cfg env n).1 = Except.error e) :
    (get_corpus_info cfg env n st).1.status = "error" ∧
    (get_corpus_info cfg env n st).1.message =
      "Error retrieving files for corpus \x27" ++ n ++ "\x27: " ++ e := by
  unfold get_corpus_info
  rcases hg : get_corpus_resource_name cfg env n with ⟨rn, tr2⟩
  rw [hg] at hfiles
  simp only at hfiles
  simp [hinit, check_cache_hit cfg env n st hcache, hg, hfiles]

/-- Failing backend used by the C1 witness: the client initialises, but
every subsequent call raises. -/
def envBOOM : Backend :=
  { initResult := Except.ok (),
    listCorpora := Except.error "boom",
    createCorpus := fun _ => Except.error "boom",
    deleteCorpus := fun _ => Except.error "boom",
    deleteFile := fun _ => Except.error "boom",
    importFiles := fun _ _ => Except.error "boom",
    retrievalQuery := fun _ _ => Except.error "boom",
    getCorpus := fun _ => Except.error "boom",
    listFiles := fun _ => Except.error "boom" }

/-- Backend whose corpus listing raises while everything else succeeds,
used by the C1 counterexample. -/
def envListBoom : Backend := { envOK with listCorpora := Except.error "boom" }

/-- C1 (amended): every public operation, on every input and environment,
returns an envelope whose status is success, warning or error — no
exception ever propagates — and a backend exception that is not swallowed
internally (the resolver's lookup failure and the existence check fail
closed) is caught at the operation boundary and converted to status error
with the exception text embedded in the message. -/
theorem c1_uniform_envelope :
    (∀ (cfg : Config) (env : Backend) (n q : String) (st : SessionState),
      validStatus (rag_query cfg env n q st).1.status = true) ∧
    (∀ (cfg : Config) (env : Backend) (n : String) (paths : List String) (st : SessionState),
      validStatus (add_data cfg env n paths st).1.status = true) ∧
    (∀ (cfg : Config) (env : Backend) (n : String) (confirm : Bool) (st : SessionState),
      validStatus (delete_corpus cfg env n confirm st).1.status = true) ∧
    (∀ (cfg : Config) (env : Backend) (n d : String) (st : SessionState),
      validStatus (delete_document cfg env n d st).1.status = true) ∧
    (∀ (cfg : Config) (env : Backend) (n : String) (st : SessionState),
      validStatus (get_corpus_info cfg env n st).1.status = true) ∧
    (∀ (env : Backend) (st : SessionState),
      validStatus (list_corpora env st).1.status = true) ∧
    (∀ (env : Backend) (st : SessionState) (e : String),
      env.initResult = Except.ok () → env.listCorpora = Except.error e →
      (list_corpora env st).1.status = "error" ∧
      (list_corpora env st).1.message = "Error listing corpora: " ++ e) ∧
    (∀ (cfg : Config) (env : Backend) (n q : String) (st : SessionState) (e : String),
      env.initResult = Except.ok () →
      getKey st ("corpus_exists_" ++ n) = some true →
      env.retrievalQuery (get_corpus_resource_name cfg env n).1 q = Except.error e →
      (rag_query cfg env n q st).1.status = "error" ∧
      (rag_query cfg env n q st).1.message = "Error querying corpus: " ++ e) ∧
    (∀ (cfg : Config) (env : Backend) (n : String) (paths : List String)
        (st : SessionState) (e : String),
      env.initResult = Except.ok () →
      getKey st ("corpus_exists_" ++ n) = some true →
      (classify paths).1 ≠ [] →
      env.importFiles (get_corpus_resource_name cfg env n).1 (classify paths).1 =
        Except.error e →
      (add_data cfg env n paths st).1.status = "error" ∧
      (add_data cfg env n paths st).1.message = "Error adding data to corpus: " ++ e) ∧
    (∀ (cfg : Config) (env : Backend) (n : String) (st : SessionState) (e : String),
      env.initResult = Except.ok () →
      getKey st ("corpus_exists_" ++ n) = some true →
      env.deleteCorpus (get_corpus_resource_name cfg env n).1 = Except.error e →
      (delete_corpus cfg env n true st).1.status = "error" ∧
      (delete_corpus cfg env n true st).1.message = "Error deleting corpus: " ++ e) ∧
    (∀ (cfg : Config) (env : Backend) (n d : String) (st : SessionState) (e : String),
      env.initResult = Except.ok () →
      getKey st ("corpus_exists_" ++ n) = some true →
      env.deleteFile ((get_corpus_resource_name cfg env n).1 ++ "/ragFiles/" ++ d) =
        Except.error e →
      (delete_document cfg env n d st).1.status = "error" ∧
      (delete_document cfg env n d st).1.message = "Error deleting document: " ++ e) ∧
    (∀ (cfg : Config) (env : Backend) (n : String) (st : SessionState) (e : String),
      env.initResult = Except.ok () →
      getKey st ("corpus_exists_" ++ n) = some true →
      env.listFiles (get_corpus_resource_name cfg env n).1 = Except.error e →
      (get_corpus_info cfg env n st).1.status = "error" ∧
      (get_corpus_info cfg env n st).1.message =
        "Error retrieving files for corpus \x27" ++ n ++ "\x27: " ++ e) :=
  ⟨rag_query_status_valid, add_data_status_valid, delete_corpus_status_valid,
   delete_document_status_valid, get_corpus_info_status_valid, list_corpora_status_valid,
   list_corpora_error_boundary,
   fun cfg env n q st e h1 h2 h3 => rag_query_error_boundary cfg env n q st e h1 h2 h3,
   fun cfg env n paths st e h1 h2 h3 h4 =>
     add_data_error_boundary cfg env n paths st e h1 h2 h3 h4,
   fun cfg env n st e h1 h2 h3 => delete_corpus_error_boundary cfg env n st e h1 h2 h3,
   fun cfg env n d st e h1 h2 h3 => delete_document_error_boundary cfg env n d st e h1 h2 h3,
   fun cfg env n st e h1 h2 h3 => get_corpus_info_error_boundary cfg env n st e h1 h2 h3⟩

/-- Counterexample for C1 as stated: with a backend whose corpus listing
raises (text boom), rag_query still returns status warning — the exception
was swallowed by the existence check, the corpus auto-created, and the
warning branch taken — so a backend exception does not imply a status=error
envelope embedding the exception text. -/
theorem c1_counterexample :
    envListBoom.listCorpora = Except.error "boom" ∧
    RemoteCall.listCorpora ∈ (rag_query cfgW envListBoom "c" "q" []).2.2 ∧
    (rag_query cfgW envListBoom "c" "q" []).1.status = "warning" := by
  refine ⟨rfl, by decide, by decide⟩

/-- Witness for C1 at concrete inputs: a healthy run is well-statused, and
each kind of boundary failure produces an error envelope embedding the
exception text. -/
theorem c1_witness :
    validStatus (rag_query cfgW envOK "c" "q" []).1.status = true ∧
    ((list_corpora envBOOM []).1.status = "error" ∧
     (list_corpora envBOOM []).1.message = "Error listing corpora: boom") ∧
    ((rag_query cfgW envBOOM "c" "q" [("corpus_exists_c", true)]).1.status = "error" ∧
     (rag_query cfgW envBOOM "c" "q" [("corpus_exists_c", true)]).1.message =
       "Error querying corpus: boom") ∧
    ((delete_corpus cfgW envBOOM "c" true [("corpus_exists_c", true)]).1.status = "error" ∧
     (delete_corpus cfgW envBOOM "c" true [("corpus_exists_c", true)]).1.message =
       "Error deleting corpus: boom") :=
  ⟨c1_uniform_envelope.1 cfgW envOK "c" "q" [],
   c1_uniform_envelope.2.2.2.2.2.2.1 envBOOM [] "boom" rfl rfl,
   c1_uniform_envelope.2.2.2.2.2.2.2.1 cfgW envBOOM "c" "q" [("corpus_exists_c", true)]
     "boom" rfl (by decide) rfl,
   c1_uniform_envelope.2.2.2.2.2.2.2.2.2.1 cfgW envBOOM "c" [("corpus_exists_c", true)]
     "boom" rfl (by decide) rfl⟩
